import Mathlib

/-!
Shallow embedding of src/src/js_util.hpp (realm-js JavaScriptCore interop
utilities).  JavaScript values are modelled by an inductive type; C++
exceptions become an `Except` error type whose constructors mirror the
std exception classes thrown by this header; the adapter macros become
higher-order functions over an abstract native method.  Machine `long` is
modelled by unbounded `Int` (no overflow modelling); `size_t` by `Nat`.
-/

/-- A JavaScript number: either NaN or an integer value.  The header only
inspects numbers through null/NaN checks, so fractional doubles are not
needed by any claim and numbers are carried as integers. -/
inductive JSNumber
  | nan
  | val (n : Int)

/-- A JavaScript value as seen through the JavaScriptCore C API used by
js_util.hpp: undefined, null, boolean, number, string, or object (an object
is its property list). -/
inductive JSValue
  | undefined
  | null
  | boolean (b : Bool)
  | number (n : JSNumber)
  | string (s : String)
  | object (props : List (String × JSValue))

/-- Native C++ exceptions thrown by js_util.hpp: std::invalid_argument,
std::out_of_range, std::runtime_error, and RJSException (a runtime_error
wrapping a script exception, whose what() is the rendered script value,
src/src/js_util.hpp:144-152). -/
inductive RJSError
  | invalidArgument (msg : String)
  | outOfRange (msg : String)
  | runtimeError (msg : String)
  | rjsException (msg : String)

/-- The what() message of a native exception. -/
def RJSError.what : RJSError → String
  | RJSError.invalidArgument m => m
  | RJSError.outOfRange m => m
  | RJSError.runtimeError m => m
  | RJSError.rjsException m => m

/-- A script-engine error object carrying a message (the JSValueRef produced
by RJSMakeError). -/
structure ScriptError where
  message : String

/-- Modelled from the spec: RJSMakeError(ctx, std::exception&) is declared at
src/src/js_util.hpp:155 but defined outside src/; per the spec it converts a
native exception into a script error object carrying the exception's
message. -/
def RJSMakeError (e : RJSError) : ScriptError :=
  { message := RJSError.what e }

/-- Modelled from the spec: RJSMakeError(ctx, const std::string&) is declared
at src/src/js_util.hpp:156 but defined outside src/; it builds a script error
from a raw message string. -/
def RJSMakeErrorMsg (msg : String) : ScriptError :=
  { message := msg }

/-- Modelled from the spec: RJSStringForValue is declared at
src/src/js_util.hpp:120 but defined outside src/; on a script error value it
yields the rendered form carrying the error's message. -/
def RJSStringForError (e : ScriptError) : String :=
  e.message

/-- RJSSetException (src/src/js_util.hpp:319-321): stores
RJSMakeError(ctx, exception) into the exception output slot.  The model
returns the value written to the slot. -/
def RJSSetException (e : RJSError) : ScriptError :=
  RJSMakeError e

/-- Numeric value of a digit list, most significant first. -/
def digitsVal (ds : List Char) : Nat :=
  ds.foldl (fun a c => a * 10 + (c.toNat - 48)) 0

/-- JavaScript ToNumber on a string (used by the model of JSValueToNumber):
trimmed-empty is 0; an optional sign followed by digits is that integer; any
other form is NaN.  Fractional, hex and infinity literal forms are outside
the model (no claim depends on them). -/
def jsStringToNumber (s : String) : JSNumber :=
  let cs := ((s.data.dropWhile Char.isWhitespace).reverse.dropWhile Char.isWhitespace).reverse
  match cs with
  | [] => JSNumber.val 0
  | '-' :: rest =>
      if rest ≠ [] ∧ rest.all Char.isDigit then JSNumber.val (-(digitsVal rest : Int))
      else JSNumber.nan
  | '+' :: rest =>
      if rest ≠ [] ∧ rest.all Char.isDigit then JSNumber.val (digitsVal rest)
      else JSNumber.nan
  | _ =>
      if cs.all Char.isDigit then JSNumber.val (digitsVal cs)
      else JSNumber.nan

/-- Model of the engine primitive JSValueToNumber (JavaScript ToNumber):
undefined is NaN, null is 0, booleans are 0/1, numbers are themselves,
strings parse numerically, and a plain object converts through its default
string form to NaN.  User-defined valueOf hooks (which could make the
conversion itself throw a script exception) are outside the model. -/
def jsToNumber : JSValue → JSNumber
  | JSValue.undefined => JSNumber.nan
  | JSValue.null => JSNumber.val 0
  | JSValue.boolean b => JSNumber.val (if b then 1 else 0)
  | JSValue.number n => n
  | JSValue.string s => jsStringToNumber s
  | JSValue.object _ => JSNumber.nan

/-- RJSValidatedValueToNumber (src/src/js_util.hpp:186-200): rejects null
with invalid_argument before converting (so null is never coerced to 0),
converts via JSValueToNumber, and rejects a NaN result with
invalid_argument. -/
def RJSValidatedValueToNumber (value : JSValue) : Except RJSError Int :=
  match value with
  | JSValue.null => Except.error (RJSError.invalidArgument "`null` is not a number.")
  | v =>
      match jsToNumber v with
      | JSNumber.nan => Except.error (RJSError.invalidArgument "Value not convertible to a number.")
      | JSNumber.val n => Except.ok n

/-- RJSValidatedValueToBoolean (src/src/js_util.hpp:202-207): requires the
value's dynamic kind to already be boolean (JSValueIsBoolean), otherwise
throws invalid_argument; no truthiness coercion. -/
def RJSValidatedValueToBoolean (value : JSValue) : Except RJSError Bool :=
  match value with
  | JSValue.boolean b => Except.ok b
  | _ => Except.error (RJSError.invalidArgument "Value is not a boolean.")

/-- RJSValidateArgumentCount (src/src/js_util.hpp:126-130): throws
invalid_argument(message ?: "Invalid arguments") when the count differs
from the expected arity. -/
def RJSValidateArgumentCount (argumentCount expected : Nat) (message : Option String) :
    Except RJSError Unit :=
  if argumentCount ≠ expected then
    Except.error (RJSError.invalidArgument (message.getD "Invalid arguments"))
  else
    Except.ok ()

/-- Model of istringstream extraction of a long (the body of stot<long>,
src/src/js_util.hpp:270-279): skip leading whitespace, read an optional
sign, then a maximal digit run; fail (none) when no digit is extracted;
trailing characters are ignored.  long overflow is not modelled (the value
is an unbounded Int). -/
def extractLong (cs : List Char) : Option Int :=
  let cs1 := cs.dropWhile Char.isWhitespace
  match cs1 with
  | '-' :: rest =>
      let ds := rest.takeWhile Char.isDigit
      if ds.isEmpty then none else some (-(digitsVal ds : Int))
  | '+' :: rest =>
      let ds := rest.takeWhile Char.isDigit
      if ds.isEmpty then none else some (digitsVal ds)
  | _ =>
      let ds := cs1.takeWhile Char.isDigit
      if ds.isEmpty then none else some (digitsVal ds)

/-- stot<long> (src/src/js_util.hpp:270-279): stream-extract a long from the
string; on extraction failure throw
invalid_argument("Cannot convert string '...'"). -/
def stot (s : String) : Except RJSError Int :=
  match extractLong s.data with
  | none => Except.error (RJSError.invalidArgument ("Cannot convert string \x27" ++ s ++ "\x27"))
  | some v => Except.ok v

/-- RJSValidatedPositiveIndex (src/src/js_util.hpp:281-287): parse the
property-name string with stot<long>; throw
out_of_range("Index ... cannot be less than zero.") when the parsed value is
negative; otherwise return it as a size_t. -/
def RJSValidatedPositiveIndex (indexStr : String) : Except RJSError Nat :=
  match stot indexStr with
  | Except.error e => Except.error e
  | Except.ok index =>
      if index < 0 then
        Except.error (RJSError.outOfRange ("Index " ++ indexStr ++ " cannot be less than zero."))
      else
        Except.ok index.toNat

/-- Outcome of a JSObjectGetPropertyCallback: a returned JSValueRef, a NULL
return with the exception slot untouched (the engine treats the property as
not present and falls through to ordinary lookup), or a NULL return with the
exception slot populated. -/
inductive GetterResult
  | value (v : JSValue)
  | nullNoException
  | nullWithException (e : ScriptError)

/-- WRAP_INDEXED_GETTER (src/src/js_util.hpp:68-78): parse the property name
with RJSValidatedPositiveIndex and dispatch the native method at that index;
catch out_of_range by returning undefined, catch invalid_argument (an
unparsable name, possibly an ordinary property handled externally) by
returning NULL without raising, and catch any other exception by populating
the exception slot and returning NULL.  The native method is the
CLASS_NAME::METHOD_NAME parameter of the macro. -/
def WRAP_INDEXED_GETTER (method : Nat → Except RJSError JSValue) (property : String) :
    GetterResult :=
  match Except.bind (RJSValidatedPositiveIndex property) method with
  | Except.ok v => GetterResult.value v
  | Except.error (RJSError.outOfRange _) => GetterResult.value JSValue.undefined
  | Except.error (RJSError.invalidArgument _) => GetterResult.nullNoException
  | Except.error e => GetterResult.nullWithException (RJSSetException e)

/-- Outcome of a JSObjectSetPropertyCallback: the boolean handled-flag the
adapter returns to the engine and the final content of the exception
slot. -/
structure SetterResult where
  returned : Bool
  ex : Option ScriptError

/-- WRAP_INDEXED_SETTER (src/src/js_util.hpp:80-90): parse the property name
with RJSValidatedPositiveIndex and dispatch the native method at that index,
returning true on success; catch out_of_range by storing the converted
exception in the slot, catch invalid_argument by storing
RJSMakeError(ctx, "Invalid index"), catch any other exception by storing its
conversion; every catch path returns false. -/
def WRAP_INDEXED_SETTER (method : Nat → JSValue → Except RJSError Unit)
    (property : String) (value : JSValue) : SetterResult :=
  match Except.bind (RJSValidatedPositiveIndex property) (fun i => method i value) with
  | Except.ok _ => { returned := true, ex := none }
  | Except.error (RJSError.outOfRange m) =>
      { returned := false, ex := some (RJSSetException (RJSError.outOfRange m)) }
  | Except.error (RJSError.invalidArgument _) =>
      { returned := false, ex := some (RJSMakeErrorMsg "Invalid index") }
  | Except.error e => { returned := false, ex := some (RJSSetException e) }

/-- WRAP_PROPERTY_SETTER (src/src/js_util.hpp:61-65): run the native method
under WRAP_EXCEPTION (src/src/js_util.hpp:36-38), which catches any native
exception and stores RJSSetException's conversion in the exception slot;
the adapter then returns true unconditionally.  The result is the returned
boolean together with the exception slot. -/
def WRAP_PROPERTY_SETTER (method : JSValue → Except RJSError Unit) (value : JSValue) :
    Bool × Option ScriptError :=
  match method value with
  | Except.ok _ => (true, none)
  | Except.error e => (true, some (RJSSetException e))

/-- The set of live native handles, each named by an allocation id; delete
on a null pointer is a no-op (C++ semantics of delete nullptr). -/
structure NativeHeap where
  live : List Nat

/-- C++ delete applied to the (possibly null) private-slot pointer. -/
def deleteHandle (h : NativeHeap) : Option Nat → NativeHeap
  | none => h
  | some id => { live := h.live.erase id }

/-- The private data slot of a wrapped script object (JSObjectGetPrivate /
JSObjectSetPrivate). -/
structure JSObjectModel where
  priv : Option Nat

/-- RJSFinalize (src/src/js_util.hpp:93-97): delete the pointer stored in
the object's private slot, then set the private slot to NULL.  Returns the
heap after the delete and the object after the slot is cleared. -/
def RJSFinalize (h : NativeHeap) (o : JSObjectModel) : NativeHeap × JSObjectModel :=
  (deleteHandle h o.priv, { priv := none })

/-- A schema property descriptor; js_util.hpp reads only its name. -/
structure RProperty where
  name : String

/-- realm::ObjectSchema as consumed by js_util.hpp: the ordered property
list (schema.hpp is outside src/; only the fields this header reads are
modelled). -/
structure ObjectSchema where
  properties : List RProperty

/-- JSObjectSetProperty on an object modelled as an ordered property list:
replace the value in place when the key is present, otherwise append. -/
def setProp (d : List (String × JSValue)) (k : String) (v : JSValue) :
    List (String × JSValue) :=
  match d with
  | [] => [(k, v)]
  | p :: rest => if p.1 = k then (k, v) :: rest else p :: setProp rest k v

/-- First-match property lookup on an object modelled as an ordered
property list (JSObjectGetProperty). -/
def lookupProp (d : List (String × JSValue)) (k : String) : Option JSValue :=
  match d with
  | [] => none
  | p :: rest => if p.1 = k then some p.2 else lookupProp rest k

/-- RJSDictForPropertyArray (src/src/js_util.hpp:323-344): throw
runtime_error when the schema's property count differs from the array
length; otherwise build a fresh dictionary by setting, for i = 0..N-1, the
property named properties[i].name to array[i].  The loop over indices is
rendered as a fold over the zip of the schema names with the array (the
length check makes the pairing exact). -/
def RJSDictForPropertyArray (object_schema : ObjectSchema) (array : List JSValue) :
    Except RJSError (List (String × JSValue)) :=
  if object_schema.properties.length ≠ array.length then
    Except.error (RJSError.runtimeError "Array must contain values for all object properties")
  else
    Except.ok (((object_schema.properties.map RProperty.name).zip array).foldl
      (fun d kv => setProp d kv.1 kv.2) [])

/-! Helper lemmas about the dictionary construction. -/

theorem setProp_of_not_mem (d : List (String × JSValue)) (k : String) (v : JSValue)
    (h : k ∉ d.map Prod.fst) : setProp d k v = d ++ [(k, v)] := by
  induction d with
  | nil => rfl
  | cons p rest ih =>
    simp only [List.map_cons, List.mem_cons] at h
    push_neg at h
    simp only [setProp]
    rw [if_neg (fun he => h.1 he.symm), ih h.2]
    rfl

theorem foldl_setProp_fresh (l : List (String × JSValue)) :
    ∀ d : List (String × JSValue), (l.map Prod.fst).Nodup →
      (∀ k, k ∈ l.map Prod.fst → k ∉ d.map Prod.fst) →
      l.foldl (fun d2 kv => setProp d2 kv.1 kv.2) d = d ++ l := by
  induction l with
  | nil => intro d _ _; simp
  | cons kv rest ih =>
    intro d hnd hfresh
    have hnd2 : (rest.map Prod.fst).Nodup := by
      simp only [List.map_cons, List.nodup_cons] at hnd
      exact hnd.2
    have hhead : kv.1 ∉ rest.map Prod.fst := by
      simp only [List.map_cons, List.nodup_cons] at hnd
      exact hnd.1
    have hfresh2 : ∀ k, k ∈ rest.map Prod.fst → k ∉ (d ++ [(kv.1, kv.2)]).map Prod.fst := by
      intro k hk
      simp only [List.map_append, List.mem_append, List.map_cons, List.map_nil,
        List.mem_singleton]
      rintro (hd | he)
      · exact hfresh k (by simp [hk]) hd
      · exact hhead (he ▸ hk)
    simp only [List.foldl_cons]
    rw [setProp_of_not_mem d kv.1 kv.2 (hfresh kv.1 (by simp)), ih (d ++ [(kv.1, kv.2)]) hnd2 hfresh2]
    simp

theorem lookupProp_zip_get (names : List String) :
    ∀ (vals : List JSValue), names.Nodup → names.length = vals.length →
      ∀ (i : Nat) (h1 : i < names.length) (h2 : i < vals.length),
        lookupProp (names.zip vals) (names.get ⟨i, h1⟩) = some (vals.get ⟨i, h2⟩) := by
  induction names with
  | nil => intro vals _ _ i h1; exact absurd h1 (by simp)
  | cons n ns ih =>
    intro vals hnd hlen i h1 h2
    cases vals with
    | nil => simp at hlen
    | cons v vs =>
      cases i with
      | zero => simp [lookupProp]
      | succ j =>
        have hj1 : j < ns.length := by simpa using h1
        have hne : n ≠ ns.get ⟨j, hj1⟩ := by
          intro he
          exact (List.nodup_cons.mp hnd).1 (he ▸ List.get_mem ns j hj1)
        simp only [List.zip_cons_cons, lookupProp, List.get_cons_succ]
        rw [if_neg hne]
        exact ih vs (List.nodup_cons.mp hnd).2 (by simpa using hlen) j hj1 (by simpa using h2)

/-- C3: for every schema with N properties and every array whose length is
not N, RJSDictForPropertyArray raises the schema-mismatch runtime_error
("Array must contain values for all object properties") and produces no
dictionary: the length check precedes any construction, and the error
result carries no partial output. -/
theorem dictForPropertyArray_mismatch (schema : ObjectSchema) (arr : List JSValue)
    (h : schema.properties.length ≠ arr.length) :
    RJSDictForPropertyArray schema arr =
      Except.error (RJSError.runtimeError "Array must contain values for all object properties") := by
  unfold RJSDictForPropertyArray
  rw [if_pos h]

/-- Witness for C3: a one-property schema against an empty array. -/
theorem dictForPropertyArray_mismatch_witness :
    RJSDictForPropertyArray { properties := [{ name := "a" }] } [] =
      Except.error (RJSError.runtimeError "Array must contain values for all object properties") :=
  dictForPropertyArray_mismatch { properties := [{ name := "a" }] } [] (by decide)

/-- C4: for a schema of N distinctly-named properties and an array of length
exactly N, RJSDictForPropertyArray succeeds with a dictionary whose key
sequence equals the schema's property names in schema order, and whose value
at the i-th property name is the source array element at position i, copied
unmodified. -/
theorem dictForPropertyArray_correct (schema : ObjectSchema) (arr : List JSValue)
    (hlen : schema.properties.length = arr.length)
    (hnd : (schema.properties.map RProperty.name).Nodup) :
    ∃ d, RJSDictForPropertyArray schema arr = Except.ok d ∧
      d.map Prod.fst = schema.properties.map RProperty.name ∧
      ∀ (i : Nat) (h1 : i < schema.properties.length) (h2 : i < arr.length),
        lookupProp d ((schema.properties.get ⟨i, h1⟩).name) = some (arr.get ⟨i, h2⟩) := by
  have hlen2 : (schema.properties.map RProperty.name).length = arr.length := by
    simpa using hlen
  have hkeys : ((schema.properties.map RProperty.name).zip arr).map Prod.fst =
      schema.properties.map RProperty.name :=
    List.map_fst_zip _ _ (le_of_eq hlen2)
  refine ⟨(schema.properties.map RProperty.name).zip arr, ?_, hkeys, ?_⟩
  · unfold RJSDictForPropertyArray
    rw [if_neg (by omega)]
    rw [foldl_setProp_fresh _ [] (by rw [hkeys]; exact hnd) (by simp)]
    rfl
  · intro i h1 h2
    have h1m : i < (schema.properties.map RProperty.name).length := by simpa using h1
    have hname : (schema.properties.get ⟨i, h1⟩).name =
        (schema.properties.map RProperty.name).get ⟨i, h1m⟩ := by
      simp
    rw [hname]
    exact lookupProp_zip_get _ arr hnd hlen2 i h1m h2

/-- Witness for C4: a two-property schema against a matching two-element
array. -/
theorem dictForPropertyArray_correct_witness :
    ∃ d, RJSDictForPropertyArray { properties := [{ name := "a" }, { name := "b" }] }
        [JSValue.null, JSValue.boolean true] = Except.ok d ∧
      d.map Prod.fst = ["a", "b"] ∧
      ∀ (i : Nat) (h1 : i < 2) (h2 : i < 2),
        lookupProp d (([{ name := "a" }, { name := "b" }] : List RProperty).get ⟨i, h1⟩).name =
          some (([JSValue.null, JSValue.boolean true] : List JSValue).get ⟨i, h2⟩) :=
  dictForPropertyArray_correct { properties := [{ name := "a" }, { name := "b" }] }
    [JSValue.null, JSValue.boolean true] (by decide) (by decide)

/-- C5: RJSValidatedValueToNumber raises invalid_argument (the spec's
ConversionError) on every input that is null or whose ToNumber conversion
yields NaN (the "not convertible" cases), returning no numeric value; null
in particular is rejected explicitly with its own message rather than being
coerced to zero. -/
theorem validatedValueToNumber_rejects (v : JSValue)
    (h : v = JSValue.null ∨ jsToNumber v = JSNumber.nan) :
    (∃ msg, RJSValidatedValueToNumber v = Except.error (RJSError.invalidArgument msg)) ∧
    RJSValidatedValueToNumber JSValue.null =
      Except.error (RJSError.invalidArgument "`null` is not a number.") := by
  refine ⟨?_, rfl⟩
  rcases h with h | h
  · exact ⟨"`null` is not a number.", by rw [h]; rfl⟩
  · cases v with
    | null => exact ⟨"`null` is not a number.", rfl⟩
    | undefined => exact ⟨"Value not convertible to a number.", rfl⟩
    | boolean b =>
        exact absurd h (by cases b <;> simp [jsToNumber])
    | number n =>
        refine ⟨"Value not convertible to a number.", ?_⟩
        simp only [jsToNumber] at h
        simp [RJSValidatedValueToNumber, jsToNumber, h]
    | string s =>
        refine ⟨"Value not convertible to a number.", ?_⟩
        simp only [jsToNumber] at h
        simp [RJSValidatedValueToNumber, jsToNumber, h]
    | object props => exact ⟨"Value not convertible to a number.", rfl⟩

/-- Witness for C5: undefined converts to NaN and is rejected. -/
theorem validatedValueToNumber_rejects_witness :
    (JSValue.undefined = JSValue.null ∨ jsToNumber JSValue.undefined = JSNumber.nan) ∧
    (∃ msg, RJSValidatedValueToNumber JSValue.undefined =
      Except.error (RJSError.invalidArgument msg)) :=
  ⟨Or.inr rfl, (validatedValueToNumber_rejects JSValue.undefined (Or.inr rfl)).1⟩

/-- C6: RJSValidatedValueToBoolean raises invalid_argument (the spec's
ConversionError) on every value whose dynamic kind is not boolean — no
truthiness coercion — and returns the boolean's value on a boolean-typed
input. -/
theorem validatedValueToBoolean_strict (v : JSValue) :
    ((∀ b, v ≠ JSValue.boolean b) →
      RJSValidatedValueToBoolean v =
        Except.error (RJSError.invalidArgument "Value is not a boolean.")) ∧
    (∀ b, RJSValidatedValueToBoolean (JSValue.boolean b) = Except.ok b) := by
  constructor
  · intro h
    cases v with
    | boolean b => exact absurd rfl (h b)
    | undefined => rfl
    | null => rfl
    | number n => rfl
    | string s => rfl
    | object props => rfl
  · intro b
    rfl

/-- Witness for C6: null is not boolean-typed and is rejected. -/
theorem validatedValueToBoolean_strict_witness :
    RJSValidatedValueToBoolean JSValue.null =
      Except.error (RJSError.invalidArgument "Value is not a boolean.") :=
  (validatedValueToBoolean_strict JSValue.null).1 (fun _ h => nomatch h)

/-- C7: RJSValidateArgumentCount with actual=2, expected=3 raises
invalid_argument("Invalid arguments") (the spec's ArgumentError); with
actual=3, expected=3 it raises nothing; and whenever the counts differ, any
dispatch sequenced after the validation is never reached — the composed
computation is exactly the validation error. -/
theorem validateArgumentCount_scenario :
    RJSValidateArgumentCount 2 3 none =
      Except.error (RJSError.invalidArgument "Invalid arguments") ∧
    RJSValidateArgumentCount 3 3 none = Except.ok () ∧
    ∀ (a e2 : Nat) (f : Unit → Except RJSError JSValue), a ≠ e2 →
      Except.bind (RJSValidateArgumentCount a e2 none) f =
        Except.error (RJSError.invalidArgument "Invalid arguments") := by
  refine ⟨rfl, rfl, ?_⟩
  intro a e2 f h
  unfold RJSValidateArgumentCount
  rw [if_pos h]
  rfl

/-- Witness for C7: a dispatch guarded by a failed 2-versus-3 validation
yields the ArgumentError and never runs. -/
theorem validateArgumentCount_scenario_witness :
    Except.bind (RJSValidateArgumentCount 2 3 none) (fun _ => Except.ok JSValue.undefined) =
      Except.error (RJSError.invalidArgument "Invalid arguments") :=
  validateArgumentCount_scenario.2.2 2 3 (fun _ => Except.ok JSValue.undefined) (by decide)

/-- C8: round-trip across the exception bridge — a native exception with
message M, stored through RJSSetException as a script error and rendered
back to a string, yields a string containing M (here, equal to a prefix ++
M ++ suffix with both empty). -/
theorem makeError_roundtrip (e : RJSError) :
    ∃ pre post, RJSStringForError (RJSSetException e) = pre ++ RJSError.what e ++ post :=
  ⟨"", "", by simp [RJSStringForError, RJSSetException, RJSMakeError]⟩

/-- C9: RJSFinalize deletes the attached native handle (removing it from the
live set) and then clears the private slot to null; running RJSFinalize a
second time on the resulting object is a no-op on the heap and the object —
the cleared slot means delete acts on null, so no live handle is ever
deleted twice. -/
theorem finalize_clears_and_idempotent (h : NativeHeap) (o : JSObjectModel) :
    (RJSFinalize h o).2.priv = none ∧
    (∀ id, o.priv = some id → (RJSFinalize h o).1.live = h.live.erase id) ∧
    RJSFinalize (RJSFinalize h o).1 (RJSFinalize h o).2 = RJSFinalize h o := by
  refine ⟨rfl, ?_, rfl⟩
  intro id hid
  simp [RJSFinalize, hid, deleteHandle]

/-- Witness for C9: finalizing an object holding handle 5 removes 5 from
the live set. -/
theorem finalize_clears_and_idempotent_witness :
    (RJSFinalize { live := [5] } { priv := some 5 }).1.live = List.erase [5] 5 :=
  (finalize_clears_and_idempotent { live := [5] } { priv := some 5 }).2.1 5 rfl

/-- C10: the non-indexed property setter adapter always returns true to the
runtime, even when the native setter throws; in the throwing case the
exception output slot holds the converted script error while the returned
flag is still true. -/
theorem propertySetter_returns_true (method : JSValue → Except RJSError Unit) (value : JSValue) :
    (WRAP_PROPERTY_SETTER method value).1 = true ∧
    ∀ e, method value = Except.error e →
      (WRAP_PROPERTY_SETTER method value).2 = some (RJSMakeError e) := by
  constructor
  · unfold WRAP_PROPERTY_SETTER
    cases method value with
    | ok u => rfl
    | error e => rfl
  · intro e he
    unfold WRAP_PROPERTY_SETTER
    rw [he]
    rfl

/-- Witness for C10: a setter that throws a runtime_error still reports the
set as handled and fills the exception slot with the converted error. -/
theorem propertySetter_returns_true_witness :
    (WRAP_PROPERTY_SETTER (fun _ => Except.error (RJSError.runtimeError "boom")) JSValue.null).2 =
      some (RJSMakeError (RJSError.runtimeError "boom")) :=
  (propertySetter_returns_true (fun _ => Except.error (RJSError.runtimeError "boom"))
    JSValue.null).2 (RJSError.runtimeError "boom") rfl

/-- C1 counterexample: the claim says a property name that parses to a
negative number makes every indexed access raise OutOfRangeError, but the
indexed getter invoked with "-1" catches the out_of_range internally and
returns undefined with the exception slot untouched (the value constructor
of GetterResult carries no exception), raising nothing. -/
theorem indexedGetter_negative_counterexample :
    WRAP_INDEXED_GETTER (fun i => Except.ok (JSValue.number (JSNumber.val (Int.ofNat i)))) "-1" =
      GetterResult.value JSValue.undefined := rfl

/-- C1 (amended): when the property name parses to a non-negative integer,
both indexed adapters dispatch the native handler at exactly that integer;
on an unparsable name the getter returns NULL without raising (deferring to
ordinary property lookup) while the setter raises an "Invalid index" error;
on a name that parses to a negative number the getter yields undefined
without raising while the setter raises OutOfRangeError. -/
theorem indexedAccess_threeWay_amended (m : Nat → Except RJSError JSValue)
    (ms : Nat → JSValue → Except RJSError Unit) (v : JSValue) (prop : String) :
    (∀ i rv, RJSValidatedPositiveIndex prop = Except.ok i → m i = Except.ok rv →
      WRAP_INDEXED_GETTER m prop = GetterResult.value rv) ∧
    (∀ i, RJSValidatedPositiveIndex prop = Except.ok i → ms i v = Except.ok () →
      WRAP_INDEXED_SETTER ms prop v = { returned := true, ex := none }) ∧
    (∀ msg, stot prop = Except.error (RJSError.invalidArgument msg) →
      WRAP_INDEXED_GETTER m prop = GetterResult.nullNoException ∧
      WRAP_INDEXED_SETTER ms prop v =
        { returned := false, ex := some (RJSMakeErrorMsg "Invalid index") }) ∧
    (∀ n, stot prop = Except.ok n → n < 0 →
      WRAP_INDEXED_GETTER m prop = GetterResult.value JSValue.undefined ∧
      WRAP_INDEXED_SETTER ms prop v =
        { returned := false,
          ex := some (RJSMakeError
            (RJSError.outOfRange ("Index " ++ prop ++ " cannot be less than zero."))) }) := by
  refine ⟨?_, ?_, ?_, ?_⟩
  · intro i rv hpi hm
    unfold WRAP_INDEXED_GETTER
    rw [hpi]
    show (match m i with
      | Except.ok v2 => GetterResult.value v2
      | Except.error (RJSError.outOfRange _) => GetterResult.value JSValue.undefined
      | Except.error (RJSError.invalidArgument _) => GetterResult.nullNoException
      | Except.error e => GetterResult.nullWithException (RJSSetException e)) = GetterResult.value rv
    rw [hm]
  · intro i hpi hm
    unfold WRAP_INDEXED_SETTER
    rw [hpi]
    show (match ms i v with
      | Except.ok _ => { returned := true, ex := none }
      | Except.error (RJSError.outOfRange m2) =>
          { returned := false, ex := some (RJSSetException (RJSError.outOfRange m2)) }
      | Except.error (RJSError.invalidArgument _) =>
          { returned := false, ex := some (RJSMakeErrorMsg "Invalid index") }
      | Except.error e =>
          { returned := false, ex := some (RJSSetException e) } : SetterResult) =
        { returned := true, ex := none }
    rw [hm]
  · intro msg hstot
    have hpi : RJSValidatedPositiveIndex prop = Except.error (RJSError.invalidArgument msg) := by
      unfold RJSValidatedPositiveIndex
      rw [hstot]
    constructor
    · unfold WRAP_INDEXED_GETTER
      rw [hpi]
      rfl
    · unfold WRAP_INDEXED_SETTER
      rw [hpi]
      rfl
  · intro n hstot hneg
    have hpi : RJSValidatedPositiveIndex prop = Except.error
        (RJSError.outOfRange ("Index " ++ prop ++ " cannot be less than zero.")) := by
      unfold RJSValidatedPositiveIndex
      rw [hstot]
      show (if n < 0 then
          Except.error (RJSError.outOfRange ("Index " ++ prop ++ " cannot be less than zero."))
        else Except.ok n.toNat) = _
      rw [if_pos hneg]
    constructor
    · unfold WRAP_INDEXED_GETTER
      rw [hpi]
      rfl
    · unfold WRAP_INDEXED_SETTER
      rw [hpi]
      rfl

/-- Witness for C1 (amended): the getter dispatched at "2" reaches the
handler at index 2, and the setter at "abc" raises the "Invalid index"
error. -/
theorem indexedAccess_threeWay_amended_witness :
    WRAP_INDEXED_GETTER (fun i => Except.ok (JSValue.number (JSNumber.val (Int.ofNat i)))) "2" =
      GetterResult.value (JSValue.number (JSNumber.val 2)) ∧
    WRAP_INDEXED_SETTER (fun _ _ => Except.ok ()) "abc" JSValue.null =
      { returned := false, ex := some (RJSMakeErrorMsg "Invalid index") } :=
  ⟨(indexedAccess_threeWay_amended (fun i => Except.ok (JSValue.number (JSNumber.val (Int.ofNat i))))
      (fun _ _ => Except.ok ()) JSValue.null "2").1 2 (JSValue.number (JSNumber.val 2)) rfl rfl,
   ((indexedAccess_threeWay_amended (fun i => Except.ok (JSValue.number (JSNumber.val (Int.ofNat i))))
      (fun _ _ => Except.ok ()) JSValue.null "abc").2.2.1 "Cannot convert string \x27abc\x27"
      rfl).2⟩

/-- C2 counterexample: the claim says the indexed setter invoked with "abc"
is treated as a non-indexed property and raises nothing from this layer, but
the setter's invalid_argument catch stores RJSMakeError(ctx, "Invalid
index") in the exception output slot (and returns false), so an error is
raised. -/
theorem indexedSetter_unparsable_counterexample :
    WRAP_INDEXED_SETTER (fun _ _ => Except.ok ()) "abc" JSValue.null =
      { returned := false, ex := some (RJSMakeErrorMsg "Invalid index") } := rfl

/-- C2 (amended): the indexed setter invoked with property name "-1" raises
OutOfRangeError with the message "Index -1 cannot be less than zero."; the
setter invoked with "abc" is not treated as a benign non-indexed property:
it raises an "Invalid index" error (returning false), whatever the native
method and value. -/
theorem indexedSetter_scenario_amended (ms : Nat → JSValue → Except RJSError Unit)
    (v : JSValue) :
    WRAP_INDEXED_SETTER ms "-1" v =
      { returned := false,
        ex := some (RJSMakeError (RJSError.outOfRange "Index -1 cannot be less than zero.")) } ∧
    WRAP_INDEXED_SETTER ms "abc" v =
      { returned := false, ex := some (RJSMakeErrorMsg "Invalid index") } := by
  constructor
  · unfold WRAP_INDEXED_SETTER
    rfl
  · unfold WRAP_INDEXED_SETTER
    rfl
